import Mathlib

/-!
Verification of the Keypoint job-board search engine (routes/jobs.js).

The development shallowly embeds the query-shaping logic of the job listing
endpoint (GET /), the advanced search endpoint (POST /search) and the
trending endpoint (GET /trending/popular): rows are explicit records, the
dynamically assembled SQL WHERE clause becomes a boolean predicate, the
ORDER BY clause becomes an `Ordering`-valued comparator built from a list of
sort keys, and OFFSET/FETCH pagination becomes drop/take on the sorted list.
Dates are modelled as integers counting days; LIKE with a %text% pattern
becomes case-insensitive substring containment.
-/

/-- Sort direction of one ORDER BY key. -/
inductive Dir : Type
  | asc : Dir
  | desc : Dir
deriving DecidableEq, Repr

/-- A SQL value as it appears in an ORDER BY key: an integer (also used for
dates, which are day numbers here), a string, or NULL. -/
inductive SqlVal : Type
  | vint : Int → SqlVal
  | vstr : String → SqlVal
  | vnull : SqlVal
deriving DecidableEq, Repr

/-- Comparison of SQL values with NULL ordered lowest, matching the SQL
engine's treatment (NULLs first ascending, last descending). -/
def SqlVal.cmp : SqlVal → SqlVal → Ordering
  | .vnull, .vnull => .eq
  | .vnull, _ => .lt
  | _, .vnull => .gt
  | .vint a, .vint b => if a < b then .lt else if b < a then .gt else .eq
  | .vstr a, .vstr b => if a < b then .lt else if b < a then .gt else .eq
  | .vint _, .vstr _ => .lt
  | .vstr _, .vint _ => .gt

/-- Directed comparison: descending order swaps the operands. -/
def dirCmp (d : Dir) (a b : SqlVal) : Ordering :=
  match d with
  | .asc => a.cmp b
  | .desc => b.cmp a

/-- One ORDER BY key: an expression evaluated on a row, with a direction. -/
structure OrderKey (α : Type) : Type where
  expr : α → SqlVal
  dir : Dir

/-- Comparator induced by an ORDER BY key list: the first key that does not
tie decides. -/
def cmpByKeys {α : Type} (ks : List (OrderKey α)) (a b : α) : Ordering :=
  match ks with
  | [] => .eq
  | k :: rest => (dirCmp k.dir (k.expr a) (k.expr b)).then (cmpByKeys rest a b)

/-- Check that `pat` occurs at the head of `l`. -/
def prefixMatch : List Char → List Char → Bool
  | [], _ => true
  | _ :: _, [] => false
  | a :: as, b :: bs => a == b && prefixMatch as bs

/-- Check that `pat` occurs contiguously somewhere in `l`. -/
def infixMatch (pat : List Char) : List Char → Bool
  | [] => pat.isEmpty
  | c :: cs => prefixMatch pat (c :: cs) || infixMatch pat cs

/-- Semantic model of SQL `field LIKE '%pat%'` under a case-insensitive
collation: the pattern occurs in the field, ignoring case. -/
def likeContains (pat field : String) : Bool :=
  infixMatch (pat.toList.map Char.toLower) (field.toList.map Char.toLower)

/-- Insertion into a list sorted by a comparator, keeping earlier elements
first on ties. -/
def insertOrd {α : Type} (cmp : α → α → Ordering) (a : α) : List α → List α
  | [] => [a]
  | b :: bs =>
    match cmp a b with
    | .gt => b :: insertOrd cmp a bs
    | _ => a :: b :: bs

/-- Insertion sort by a comparator; stands in for the SQL engine's ORDER BY
(the claims proved below depend only on the comparator and on the fact that
sorting permutes the rows). -/
def isort {α : Type} (cmp : α → α → Ordering) : List α → List α
  | [] => []
  | a :: as => insertOrd cmp a (isort cmp as)

/-- A row of the Jobs table, with the columns the job-listing paths read.
NULLable columns used with explicit IS NULL handling or date comparison are
Options; `posted_date` and `application_deadline` are day numbers. -/
structure Job : Type where
  job_id : Nat
  company_id : Nat
  title : String
  description : String
  requirements : String
  location : String
  remote_work_option : String
  salary_min : Option Int
  salary_max : Option Int
  job_type : String
  experience_level : String
  industry : String
  posted_date : Int
  application_deadline : Option Int
  views_count : Nat
  current_applications : Nat
  status : String
deriving DecidableEq, Repr

/-- A row of the Companies table (the columns the search paths read). -/
structure Company : Type where
  company_id : Nat
  company_name : String
  company_size : String
deriving DecidableEq, Repr

/-- One row of the `Jobs INNER JOIN Companies` join. -/
structure JRow : Type where
  job : Job
  company : Company
deriving DecidableEq, Repr

/-- The authenticated caller attached by optionalAuth as `req.user`
(absent when the request is unauthenticated). -/
structure Identity : Type where
  userType : String
  jobseekerId : Nat
deriving DecidableEq, Repr

/-- The queryable store: the join rows plus the two relations the
identity annotation subqueries count over, each a list of
(job_id, jobseeker_id) pairs. -/
structure DB : Type where
  rows : List JRow
  applications : List (Nat × Nat)
  savedJobs : List (Nat × Nat)
deriving DecidableEq, Repr

/-- Truth of `application_deadline IS NULL OR application_deadline >=
CAST(GETDATE() AS DATE)` at day `now`. -/
def deadlineOk (now : Int) (d : Option Int) : Bool :=
  match d with
  | none => true
  | some x => decide (now ≤ x)

/-- Salary-range body filter of POST /search: `{min?, max?}`. -/
structure SalaryRange : Type where
  min : Option Int
  max : Option Int
deriving DecidableEq, Repr

/-- The POST /search request body. Absent JSON fields are `none`; the
handler also receives but never destructures `sort_order`, which is kept
here to state that it is ignored. -/
structure SearchBody : Type where
  keywords : Option String := none
  location : Option String := none
  job_types : Option (List String) := none
  experience_levels : Option (List String) := none
  industries : Option (List String) := none
  salary_range : Option SalaryRange := none
  remote_only : Option Bool := none
  posted_within_days : Option Int := none
  company_size : Option (List String) := none
  sort_by : Option String := none
  sort_order : Option String := none
  page : Option Nat := none
  limit : Option Nat := none
deriving DecidableEq, Repr

/-- Keyword clause of POST /search: `title LIKE @keywords OR description
LIKE @keywords OR requirements LIKE @keywords OR company_name LIKE
@keywords` with `@keywords = '%kw%'`. -/
def searchKeywordOk (k : String) (r : JRow) : Bool :=
  likeContains k r.job.title || likeContains k r.job.description ||
    likeContains k r.job.requirements || likeContains k r.company.company_name

/-- Salary minimum clause of POST /search: added only when `salary_range.min`
is truthy (present and nonzero), and then reads `salary_min >= @salaryMin OR
salary_min IS NULL`. -/
def salaryMinOk (bound : Option Int) (field : Option Int) : Bool :=
  match bound with
  | none => true
  | some m =>
    if m = 0 then true
    else
      match field with
      | none => true
      | some s => decide (m ≤ s)

/-- Salary maximum clause of POST /search: added only when `salary_range.max`
is truthy, and then reads `salary_max <= @salaryMax OR salary_max IS NULL`. -/
def salaryMaxOk (bound : Option Int) (field : Option Int) : Bool :=
  match bound with
  | none => true
  | some m =>
    if m = 0 then true
    else
      match field with
      | none => true
      | some s => decide (s ≤ m)

/-- The WHERE clause POST /search assembles, as a predicate on a join row.
Clauses appear in source order, starting from `status = 'active'`; a filter
that is absent (or JS-falsy: empty string, empty array, zero, false)
contributes nothing. The handler appends no application-deadline clause. -/
def searchWhere (now : Int) (b : SearchBody) (r : JRow) : Bool :=
  (r.job.status = "active")
  && (match b.keywords with
      | none => true
      | some k => if k = "" then true else searchKeywordOk k r)
  && (match b.location with
      | none => true
      | some l => if l = "" then true else likeContains l r.job.location)
  && (match b.job_types with
      | none => true
      | some ts => if ts.isEmpty then true else ts.contains r.job.job_type)
  && (match b.experience_levels with
      | none => true
      | some ls => if ls.isEmpty then true else ls.contains r.job.experience_level)
  && (match b.industries with
      | none => true
      | some is => if is.isEmpty then true else is.contains r.job.industry)
  && (match b.salary_range with
      | none => true
      | some sr => salaryMinOk sr.min r.job.salary_min && salaryMaxOk sr.max r.job.salary_max)
  && (match b.remote_only with
      | some true => r.job.remote_work_option = "Yes" || r.job.remote_work_option = "Hybrid"
      | _ => true)
  && (match b.posted_within_days with
      | none => true
      | some d => if d = 0 then true else decide (now - d ≤ r.job.posted_date))
  && (match b.company_size with
      | none => true
      | some cs => if cs.isEmpty then true else cs.contains r.company.company_size)

/-- The GET / query string after express-validator: every field optional
(validated fields that are present hold an accepted value). Query-string
values are nonempty when present (an empty numeric/enumerated value fails
validation, and an empty trimmed text value is JS-falsy and contributes no
clause, which presence of `some ""` models for the text fields). -/
structure ListQuery : Type where
  page : Option Nat := none
  limit : Option Nat := none
  search : Option String := none
  location : Option String := none
  job_type : Option String := none
  experience_level : Option String := none
  remote_work_option : Option String := none
  salary_min : Option Int := none
  salary_max : Option Int := none
  industry : Option String := none
  sort_by : Option String := none
  sort_order : Option String := none
deriving DecidableEq, Repr

/-- Keyword clause of GET /: `title LIKE @search OR description LIKE
@search OR company_name LIKE @search` (three columns; no requirements). -/
def listKeywordOk (k : String) (r : JRow) : Bool :=
  likeContains k r.job.title || likeContains k r.job.description ||
    likeContains k r.company.company_name

/-- The WHERE clause GET / assembles: clauses in source order starting from
`status = 'active'`, with the application-deadline clause appended last.
Numeric salary bounds contribute a clause whenever the parameter is present
(a present validated query parameter is a nonempty string, hence truthy,
including the string "0"). -/
def listWhere (now : Int) (q : ListQuery) (r : JRow) : Bool :=
  (r.job.status = "active")
  && (match q.search with
      | none => true
      | some k => if k = "" then true else listKeywordOk k r)
  && (match q.location with
      | none => true
      | some l => if l = "" then true else likeContains l r.job.location)
  && (match q.job_type with
      | none => true
      | some t => r.job.job_type = t)
  && (match q.experience_level with
      | none => true
      | some e => r.job.experience_level = e)
  && (match q.remote_work_option with
      | none => true
      | some w => r.job.remote_work_option = w)
  && (match q.salary_min with
      | none => true
      | some m =>
        match r.job.salary_min with
        | none => true
        | some s => decide (m ≤ s))
  && (match q.salary_max with
      | none => true
      | some m =>
        match r.job.salary_max with
        | none => true
        | some s => decide (s ≤ m))
  && (match q.industry with
      | none => true
      | some i => if i = "" then true else likeContains i r.job.industry)
  && deadlineOk now r.job.application_deadline

/-- The sort_by values GET /'s validator accepts; any other present value
is rejected with a 400 validation failure before any query runs. -/
def listSortByValid (q : ListQuery) : Bool :=
  match q.sort_by with
  | none => true
  | some s => ["posted_date", "salary_min", "title", "company_name"].contains s

/-- Sort field selected by GET /'s ORDER BY switch. -/
def listSortField (sb : String) (r : JRow) : SqlVal :=
  match sb with
  | "salary_min" =>
    match r.job.salary_min with
    | none => .vnull
    | some s => .vint s
  | "title" => .vstr r.job.title
  | "company_name" => .vstr r.company.company_name
  | _ => .vint r.job.posted_date

/-- Direction parsed from a validated sort_order value. -/
def parseDir (s : String) : Dir :=
  if s = "asc" then .asc else .desc

/-- ORDER BY clause of GET /: exactly one key, the switched field with the
requested direction (defaults: posted_date, desc). No tie-break keys are
appended. -/
def listOrderKeys (q : ListQuery) : List (OrderKey JRow) :=
  [⟨listSortField (q.sort_by.getD "posted_date"), parseDir (q.sort_order.getD "desc")⟩]

/-- Row comparator of GET /. -/
def listCmp (q : ListQuery) (a b : JRow) : Ordering :=
  cmpByKeys (listOrderKeys q) a b

/-- Relevance tier of the POST /search CASE expression: 1 when the title
matches the keywords pattern, else 2 when the company name matches, else 3
when the description matches, else 4. -/
def relevanceTier (k : String) (r : JRow) : Int :=
  if likeContains k r.job.title then 1
  else if likeContains k r.company.company_name then 2
  else if likeContains k r.job.description then 3
  else 4

/-- The keys of `ORDER BY j.salary_max DESC, j.salary_min DESC`, the
branch POST /search hard-codes for sort_by = "salary". -/
def salaryOrderKeys : List (OrderKey JRow) :=
  [⟨fun r => match r.job.salary_max with | none => .vnull | some s => .vint s, .desc⟩,
   ⟨fun r => match r.job.salary_min with | none => .vnull | some s => .vint s, .desc⟩]

/-- ORDER BY clause of POST /search: switch on sort_by (default
"relevance"); salary sorts are hard-coded descending; relevance uses the
tier CASE ascending with posted_date descending second when keywords is
truthy, else just posted_date descending. No further tie-break keys are
appended. -/
def searchOrderKeys (b : SearchBody) : List (OrderKey JRow) :=
  match b.sort_by.getD "relevance" with
  | "posted_date" => [⟨fun r => .vint r.job.posted_date, .desc⟩]
  | "salary" => salaryOrderKeys
  | "company_name" => [⟨fun r => .vstr r.company.company_name, .asc⟩]
  | _ =>
    match b.keywords with
    | some k =>
      if k = "" then [⟨fun r => .vint r.job.posted_date, .desc⟩]
      else [⟨fun r => .vint (relevanceTier k r), .asc⟩,
            ⟨fun r => .vint r.job.posted_date, .desc⟩]
    | none => [⟨fun r => .vint r.job.posted_date, .desc⟩]

/-- Row comparator of POST /search. -/
def searchCmp (b : SearchBody) (a c : JRow) : Ordering :=
  cmpByKeys (searchOrderKeys b) a c

/-- A row of the response recordset: the join row's columns, the
`COUNT(*) OVER()` window aggregate, and the two identity-annotation
subquery columns (absent from the SELECT list when not authenticated as a
jobseeker). -/
structure RespRow : Type where
  row : JRow
  total_count : Nat
  has_applied : Option Nat
  is_saved : Option Nat
deriving DecidableEq, Repr

/-- The pagination envelope of the JSON response. -/
structure Pagination : Type where
  page : Nat
  limit : Nat
  total : Nat
  totalPages : Nat
deriving DecidableEq, Repr

/-- The JSON response of a listing/search request (success path). -/
structure SearchResult : Type where
  success : Bool
  jobs : List RespRow
  pagination : Pagination
deriving DecidableEq, Repr

/-- Math.ceil(t / l) for natural t and positive l. -/
def ceilNat (t l : Nat) : Nat :=
  (t + l - 1) / l

/-- Build one response row: the user-specific columns are selected exactly
when `req.user` exists with userType 'jobseeker', and then hold the
COUNT(*) of the Applications resp. SavedJobs rows keyed by this job and
the caller's jobseeker id. -/
def mkRespRow (db : DB) (ident : Option Identity) (total : Nat) (r : JRow) : RespRow :=
  match ident with
  | some i =>
    if i.userType = "jobseeker" then
      { row := r, total_count := total,
        has_applied :=
          some ((db.applications.filter
            (fun p => p.1 = r.job.job_id && p.2 = i.jobseekerId)).length),
        is_saved :=
          some ((db.savedJobs.filter
            (fun p => p.1 = r.job.job_id && p.2 = i.jobseekerId)).length) }
    else
      { row := r, total_count := total, has_applied := none, is_saved := none }
  | none => { row := r, total_count := total, has_applied := none, is_saved := none }

/-- Total count read off the recordset the way both handlers do:
`recordset.length > 0 ? recordset[0].total_count : 0`. -/
def recordsetTotal (items : List RespRow) : Nat :=
  match items with
  | [] => 0
  | r :: _ => r.total_count

/-- The page window both handlers request from the store: sort the
matching rows, then `OFFSET (page-1)*limit ROWS FETCH NEXT limit ROWS
ONLY`. -/
def pageWindow (cmp : JRow → JRow → Ordering) (matching : List JRow)
    (page limit : Nat) : List JRow :=
  ((isort cmp matching).drop ((page - 1) * limit)).take limit

/-- The success response shape shared by GET / and POST /search: filter,
sort, apply the page window, annotate each returned row (each also carries
the `COUNT(*) OVER()` aggregate, the number of matching rows), and wrap in
the pagination envelope with total read from the first recordset row. -/
def runQuery (db : DB) (ident : Option Identity) (w : JRow → Bool)
    (cmp : JRow → JRow → Ordering) (page limit : Nat) : SearchResult :=
  let matching := db.rows.filter w
  let items := (pageWindow cmp matching page limit).map
    (mkRespRow db ident matching.length)
  let totalCount := recordsetTotal items
  { success := true,
    jobs := items,
    pagination :=
      { page := page, limit := limit, total := totalCount,
        totalPages := ceilNat totalCount limit } }

/-- The success response POST /search produces (defaults: page 1,
limit 20, sort_by relevance). -/
def searchEndpoint (db : DB) (now : Int) (ident : Option Identity)
    (b : SearchBody) : SearchResult :=
  runQuery db ident (searchWhere now b) (searchCmp b) (b.page.getD 1) (b.limit.getD 20)

/-- The success response GET / produces (defaults: page 1, limit 20,
sort_by posted_date, sort_order desc). -/
def listEndpoint (db : DB) (now : Int) (ident : Option Identity)
    (q : ListQuery) : SearchResult :=
  runQuery db ident (listWhere now q) (listCmp q) (q.page.getD 1) (q.limit.getD 20)

/-- A background statement dispatched without being awaited. -/
inductive SideEffect : Type
  | updateViews : List Nat → SideEffect
deriving DecidableEq, Repr

/-- One complete run of the GET / handler on the success path: the JSON
response, the fire-and-forget statements dispatched, and the console log
lines produced. -/
structure ListRun : Type where
  response : SearchResult
  effects : List SideEffect
  logs : List String
deriving DecidableEq, Repr

/-- Run GET / with an environment flag telling whether the detached
view-count UPDATE will fail. The response is composed from the main query's
recordset alone; the update is dispatched only when the recordset is
nonempty, and its failure reaches only the catch handler, which logs. -/
def listRun (db : DB) (now : Int) (ident : Option Identity) (q : ListQuery)
    (updateFails : Bool) : ListRun :=
  let resp := listEndpoint db now ident q
  { response := resp,
    effects :=
      if resp.jobs.isEmpty then []
      else [SideEffect.updateViews (resp.jobs.map (fun it => it.row.job.job_id))],
    logs :=
      if resp.jobs.isEmpty then []
      else if updateFails then ["Failed to update view counts:"] else [] }

/-- Trending score: the ORDER BY expression
`views_count * 0.7 + current_applications * 0.3`, computed exactly in ℚ. -/
def trendingScore (j : Job) : ℚ :=
  (j.views_count : ℚ) * 0.7 + (j.current_applications : ℚ) * 0.3

/-- Comparison of rationals as an Ordering. -/
def cmpQ (a b : ℚ) : Ordering :=
  if a < b then .lt else if b < a then .gt else .eq

/-- Comparator of GET /trending/popular: score descending, then
posted_date descending. -/
def trendingCmp (a b : JRow) : Ordering :=
  (cmpQ (trendingScore b.job) (trendingScore a.job)).then
    (SqlVal.cmp (.vint b.job.posted_date) (.vint a.job.posted_date))

/-- Rows GET /trending/popular returns: active rows posted in the last 30
days, sorted by the trending comparator, first `limit` of them. -/
def trendingItems (db : DB) (now : Int) (limit : Nat) : List JRow :=
  (isort trendingCmp
    (db.rows.filter
      (fun r => (r.job.status = "active") && decide (now - 30 ≤ r.job.posted_date)))).take limit

/-- One complete run of the trending handler: success flag, the returned
rows (no pagination envelope on this endpoint), the background statements
dispatched, and the log lines produced. -/
structure TrendingRun : Type where
  success : Bool
  items : List JRow
  effects : List SideEffect
  logs : List String
deriving DecidableEq, Repr

/-- Run GET /trending/popular: a pure read that dispatches no background
statement and logs nothing on the success path. -/
def trendingRun (db : DB) (now : Int) (limit : Nat) : TrendingRun :=
  { success := true,
    items := trendingItems db now limit,
    effects := [],
    logs := [] }

/-- Keyword predicate as the spec words it, for comparison with the source
predicate: matched against title, description and company name only. -/
def specKeywordMatch3 (k : String) (r : JRow) : Bool :=
  likeContains k r.job.title || likeContains k r.job.description ||
    likeContains k r.company.company_name

theorem insertOrd_length {α : Type} (cmp : α → α → Ordering) (a : α)
    (l : List α) : (insertOrd cmp a l).length = l.length + 1 := by
  induction l with
  | nil => rfl
  | cons b bs ih =>
    simp only [insertOrd]
    cases cmp a b <;> simp [ih]

theorem isort_length {α : Type} (cmp : α → α → Ordering) (l : List α) :
    (isort cmp l).length = l.length := by
  induction l with
  | nil => rfl
  | cons a as ih => simp [isort, insertOrd_length, ih]

theorem mem_insertOrd {α : Type} {cmp : α → α → Ordering} {a x : α}
    {l : List α} (h : x ∈ insertOrd cmp a l) : x = a ∨ x ∈ l := by
  induction l with
  | nil => simpa [insertOrd] using h
  | cons b bs ih =>
    simp only [insertOrd] at h
    cases hc : cmp a b with
    | gt =>
      rw [hc] at h
      rcases List.mem_cons.mp h with hb | h2
      · exact Or.inr (List.mem_cons.mpr (Or.inl hb))
      · rcases ih h2 with h3 | h3
        · exact Or.inl h3
        · exact Or.inr (List.mem_cons.mpr (Or.inr h3))
    | lt =>
      rw [hc] at h
      exact List.mem_cons.mp h
    | eq =>
      rw [hc] at h
      exact List.mem_cons.mp h

theorem mem_isort {α : Type} {cmp : α → α → Ordering} {x : α} {l : List α}
    (h : x ∈ isort cmp l) : x ∈ l := by
  induction l with
  | nil => simp [isort] at h
  | cons a as ih =>
    simp only [isort] at h
    rcases mem_insertOrd h with h | h
    · exact h ▸ List.mem_cons_self a as
    · exact List.mem_cons.mpr (Or.inr (ih h))

theorem SqlVal.cmp_refl (v : SqlVal) : SqlVal.cmp v v = .eq := by
  cases v <;> simp [SqlVal.cmp]

theorem dirCmp_refl (d : Dir) (v : SqlVal) : dirCmp d v v = .eq := by
  cases d <;> simp [dirCmp, SqlVal.cmp_refl]

theorem ordThenEqRight (o : Ordering) : o.then .eq = o := by
  cases o <;> rfl

theorem le_ceilNat_mul {t l : Nat} (hl : 1 ≤ l) : t ≤ ceilNat t l * l := by
  have hd := Nat.div_add_mod (t + l - 1) l
  have hm : (t + l - 1) % l < l := Nat.mod_lt _ hl
  unfold ceilNat
  rw [Nat.mul_comm]
  omega

theorem mkRespRow_row (db : DB) (ident : Option Identity) (t : Nat)
    (r : JRow) : (mkRespRow db ident t r).row = r := by
  unfold mkRespRow
  cases ident with
  | none => rfl
  | some i =>
    by_cases h : i.userType = "jobseeker" <;> simp [h]

theorem mkRespRow_total (db : DB) (ident : Option Identity) (t : Nat)
    (r : JRow) : (mkRespRow db ident t r).total_count = t := by
  unfold mkRespRow
  cases ident with
  | none => rfl
  | some i =>
    by_cases h : i.userType = "jobseeker" <;> simp [h]

/-- A baseline active job row used by the concrete instances below. -/
def job0 : Job :=
  { job_id := 1, company_id := 1, title := "Backend Developer",
    description := "Build APIs", requirements := "SQL",
    location := "Berlin", remote_work_option := "No",
    salary_min := some 50000, salary_max := some 70000,
    job_type := "Full-time", experience_level := "Mid-level",
    industry := "Tech", posted_date := 100, application_deadline := none,
    views_count := 0, current_applications := 0, status := "active" }

/-- A baseline company row. -/
def co0 : Company :=
  { company_id := 1, company_name := "Acme", company_size := "11-50" }

/-- Baseline join row. -/
def row0 : JRow := { job := job0, company := co0 }

theorem runQuery_total_of_jobs_ne {db : DB} {ident : Option Identity}
    {w : JRow → Bool} {cmp : JRow → JRow → Ordering} {page limit : Nat}
    (h : (runQuery db ident w cmp page limit).jobs ≠ []) :
    (runQuery db ident w cmp page limit).pagination.total
      = (db.rows.filter w).length := by
  simp only [runQuery] at h ⊢
  cases hp : pageWindow cmp (db.rows.filter w) page limit with
  | nil => simp [hp] at h
  | cons r rs => simp [hp, recordsetTotal, mkRespRow_total]

theorem runQuery_jobs_of_page_overflow {db : DB} {ident : Option Identity}
    {w : JRow → Bool} {cmp : JRow → JRow → Ordering} {page limit : Nat}
    (hl : 1 ≤ limit)
    (hp : ceilNat (db.rows.filter w).length limit < page) :
    (runQuery db ident w cmp page limit).jobs = []
      ∧ (runQuery db ident w cmp page limit).success = true
      ∧ (runQuery db ident w cmp page limit).pagination.total = 0 := by
  have hoff : (db.rows.filter w).length ≤ (page - 1) * limit := by
    have h1 : ceilNat (db.rows.filter w).length limit ≤ page - 1 := by omega
    calc (db.rows.filter w).length
        ≤ ceilNat (db.rows.filter w).length limit * limit := le_ceilNat_mul hl
      _ ≤ (page - 1) * limit := Nat.mul_le_mul_right _ h1
  have hwin : pageWindow cmp (db.rows.filter w) page limit = [] := by
    unfold pageWindow
    have : (isort cmp (db.rows.filter w)).length ≤ (page - 1) * limit := by
      rw [isort_length]; exact hoff
    rw [List.drop_eq_nil_of_le this, List.take_nil]
  simp [runQuery, hwin, recordsetTotal]

/-- C1 counterexample: one matching active row, default limit 20, page 2.
The page is past the data, so the handler reads `total_count` off an empty
recordset and reports total = 0, although one row matches the predicate
set; the claim demands the two be equal for every request. -/
theorem C1_totalCount_counterexample :
    (searchEndpoint ⟨[row0], [], []⟩ 200 none { page := some 2 }).pagination.total = 0
      ∧ (((⟨[row0], [], []⟩ : DB).rows.filter (searchWhere 200 { page := some 2 })).length = 1)
      ∧ (0 : Nat) ≠ 1 := by
  refine ⟨by decide, by decide, by decide⟩

/-- C1 amended: on both endpoints, whenever the returned page is nonempty
the reported total equals the number of rows matching the predicate set;
and for any valid page beyond totalPages the handler returns empty items
with a success response and no error — but then reports total = 0 rather
than the matching count. -/
theorem C1_pagination_total_amended (db : DB) (now : Int)
    (ident : Option Identity) (b : SearchBody) (q : ListQuery) :
    ((searchEndpoint db now ident b).jobs ≠ [] →
      (searchEndpoint db now ident b).pagination.total
        = (db.rows.filter (searchWhere now b)).length)
    ∧ (1 ≤ b.limit.getD 20 →
       ceilNat (db.rows.filter (searchWhere now b)).length (b.limit.getD 20) < b.page.getD 1 →
      (searchEndpoint db now ident b).jobs = []
        ∧ (searchEndpoint db now ident b).success = true
        ∧ (searchEndpoint db now ident b).pagination.total = 0)
    ∧ ((listEndpoint db now ident q).jobs ≠ [] →
      (listEndpoint db now ident q).pagination.total
        = (db.rows.filter (listWhere now q)).length)
    ∧ (1 ≤ q.limit.getD 20 →
       ceilNat (db.rows.filter (listWhere now q)).length (q.limit.getD 20) < q.page.getD 1 →
      (listEndpoint db now ident q).jobs = []
        ∧ (listEndpoint db now ident q).success = true
        ∧ (listEndpoint db now ident q).pagination.total = 0) := by
  refine ⟨fun h => runQuery_total_of_jobs_ne h,
          fun hl hp => runQuery_jobs_of_page_overflow hl hp,
          fun h => runQuery_total_of_jobs_ne h,
          fun hl hp => runQuery_jobs_of_page_overflow hl hp⟩

/-- C1 witness: the amended statement applied to a concrete store, once on
a populated page (total = matching count = 1) and once on an overflowing
page (empty items, success). -/
theorem C1_pagination_total_amended_witness :
    (searchEndpoint ⟨[row0], [], []⟩ 200 none {}).pagination.total
        = (((⟨[row0], [], []⟩ : DB).rows.filter (searchWhere 200 {})).length)
      ∧ ((searchEndpoint ⟨[row0], [], []⟩ 200 none { page := some 2 }).jobs = []
        ∧ (searchEndpoint ⟨[row0], [], []⟩ 200 none { page := some 2 }).success = true
        ∧ (searchEndpoint ⟨[row0], [], []⟩ 200 none { page := some 2 }).pagination.total = 0) := by
  constructor
  · exact (C1_pagination_total_amended ⟨[row0], [], []⟩ 200 none {} {}).1 (by decide)
  · exact (C1_pagination_total_amended ⟨[row0], [], []⟩ 200 none { page := some 2 } {}).2.1
      (by decide) (by decide)

/-- An active job whose application deadline (day 99) has already passed
at day 200. -/
def jobExp : Job :=
  { job0 with job_id := 42, application_deadline := some 99 }

/-- Join row for the expired-deadline job. -/
def rowExp : JRow := { job := jobExp, company := co0 }

/-- C2 counterexample: POST /search appends no deadline predicate, so an
active listing whose deadline passed still satisfies the advanced-search
WHERE clause and is returned, while GET / filters it out. -/
theorem C2_deadline_counterexample :
    searchWhere 200 {} rowExp = true
      ∧ deadlineOk 200 rowExp.job.application_deadline = false
      ∧ (searchEndpoint ⟨[rowExp], [], []⟩ 200 none {}).jobs.map
          (fun it => it.row.job.job_id) = [42]
      ∧ (listEndpoint ⟨[rowExp], [], []⟩ 200 none {}).jobs = [] := by
  refine ⟨by decide, by decide, by decide, by decide⟩

/-- C2 amended: the listing endpoint's WHERE clause always enforces both
the active status and the application-deadline cutoff, regardless of the
client-supplied filters; the advanced search endpoint always enforces the
active status but never the deadline. -/
theorem C2_active_deadline_amended :
    (∀ (now : Int) (q : ListQuery) (r : JRow), listWhere now q r = true →
      r.job.status = "active" ∧ deadlineOk now r.job.application_deadline = true)
    ∧ (∀ (now : Int) (b : SearchBody) (r : JRow), searchWhere now b r = true →
      r.job.status = "active") := by
  constructor
  · intro now q r h
    simp only [listWhere, Bool.and_eq_true, decide_eq_true_eq] at h
    exact ⟨h.1.1.1.1.1.1.1.1.1, h.2⟩
  · intro now b r h
    simp only [searchWhere, Bool.and_eq_true, decide_eq_true_eq] at h
    exact h.1.1.1.1.1.1.1.1.1

/-- C2 witness: the amended statement applied to `row0`, which satisfies
the listing WHERE clause at day 200, and to `rowExp`, which satisfies the
advanced-search WHERE clause despite its passed deadline. -/
theorem C2_active_deadline_amended_witness :
    (row0.job.status = "active"
      ∧ deadlineOk 200 row0.job.application_deadline = true)
    ∧ rowExp.job.status = "active" :=
  ⟨C2_active_deadline_amended.1 200 {} row0 (by decide),
   C2_active_deadline_amended.2 200 {} rowExp (by decide)⟩

/-- Trending job with 100 views and 10 applications. -/
def jobV1 : Job :=
  { job0 with job_id := 11, views_count := 100, current_applications := 10, posted_date := 190 }

/-- Trending job with 80 views and 40 applications. -/
def jobV2 : Job :=
  { job0 with job_id := 12, views_count := 80, current_applications := 40, posted_date := 190 }

/-- Join rows for the two trending jobs. -/
def rowV1 : JRow := { job := jobV1, company := co0 }

/-- Second trending join row. -/
def rowV2 : JRow := { job := jobV2, company := co0 }

theorem trendingScore_jobV1 : trendingScore jobV1 = 73 := by
  simp [trendingScore, jobV1, job0]
  norm_num

theorem trendingScore_jobV2 : trendingScore jobV2 = 68 := by
  simp [trendingScore, jobV2, job0]
  norm_num

theorem trendingScore_jobV2_lt : trendingScore jobV2 < trendingScore jobV1 := by
  rw [trendingScore_jobV1, trendingScore_jobV2]
  norm_num

theorem cmpQ_of_lt {a b : ℚ} (h : a < b) : cmpQ a b = .lt := by
  unfold cmpQ
  rw [if_pos h]

theorem cmpQ_self (a : ℚ) : cmpQ a a = .eq := by
  unfold cmpQ
  simp [lt_irrefl]

/-- C3 counterexample: with the source formula `views*0.7 + applications*0.3`
the listing with (views=100, applications=10) scores 73.0, not the 82.0 the
claim states; the (80,40) listing does score 68.0, and the first still
ranks strictly higher. -/
theorem C3_trending_score_counterexample :
    trendingScore jobV1 = 73 ∧ trendingScore jobV1 ≠ 82
      ∧ trendingScore jobV2 = 68
      ∧ trendingCmp rowV1 rowV2 = .lt := by
  refine ⟨trendingScore_jobV1, ?_, trendingScore_jobV2, ?_⟩
  · rw [trendingScore_jobV1]; norm_num
  · show (cmpQ (trendingScore jobV2) (trendingScore jobV1)).then _ = _
    rw [cmpQ_of_lt trendingScore_jobV2_lt]
    rfl

/-- C3 amended: trending returns only active listings posted within the
last 30 days, ordered by score = 0.7·views + 0.3·applications descending
with posted_date descending as tie-break, and dispatches no side effect;
for (views=100, applications=10) and (views=80, applications=40) the
scores are 73.0 and 68.0 respectively and the first ranks higher. -/
theorem C3_trending_amended :
    (∀ (db : DB) (now : Int) (limit : Nat) (r : JRow),
      r ∈ trendingItems db now limit →
        r.job.status = "active" ∧ now - 30 ≤ r.job.posted_date)
    ∧ (∀ a b : JRow, trendingScore b.job < trendingScore a.job →
        trendingCmp a b = .lt)
    ∧ (∀ a b : JRow, trendingScore a.job = trendingScore b.job →
        trendingCmp a b
          = SqlVal.cmp (.vint b.job.posted_date) (.vint a.job.posted_date))
    ∧ (∀ (db : DB) (now : Int) (limit : Nat),
        (trendingRun db now limit).effects = []
          ∧ (trendingRun db now limit).logs = []
          ∧ (trendingRun db now limit).success = true)
    ∧ (trendingScore jobV1 = 73 ∧ trendingScore jobV2 = 68
        ∧ trendingCmp rowV1 rowV2 = .lt) := by
  refine ⟨?_, ?_, ?_, ?_, ?_, ?_⟩
  · intro db now limit r h
    unfold trendingItems at h
    have h2 := List.take_subset _ _ h
    have h3 := mem_isort h2
    have h4 := (List.mem_filter.mp h3).2
    simp only [Bool.and_eq_true, decide_eq_true_eq] at h4
    exact h4
  · intro a b h
    show (cmpQ (trendingScore b.job) (trendingScore a.job)).then _ = _
    rw [cmpQ_of_lt h]
    rfl
  · intro a b h
    show (cmpQ (trendingScore b.job) (trendingScore a.job)).then _ = _
    rw [h, cmpQ_self]
    rfl
  · intro db now limit
    exact ⟨rfl, rfl, rfl⟩
  · exact trendingScore_jobV1
  · refine ⟨trendingScore_jobV2, ?_⟩
    show (cmpQ (trendingScore jobV2) (trendingScore jobV1)).then _ = _
    rw [cmpQ_of_lt trendingScore_jobV2_lt]
    rfl

/-- C3 witness: the amended statement applied to a one-row store where the
row is returned (yielding its activity and recency), and to the two
concrete trending rows (yielding the strict ranking). -/
theorem C3_trending_amended_witness :
    (rowV1.job.status = "active" ∧ (200 : Int) - 30 ≤ rowV1.job.posted_date)
      ∧ trendingCmp rowV1 rowV2 = .lt ∧ trendingCmp rowV2 rowV1 = .gt := by
  refine ⟨C3_trending_amended.1 ⟨[rowV1], [], []⟩ 200 1 rowV1 (by decide),
    C3_trending_amended.2.1 rowV1 rowV2 trendingScore_jobV2_lt, ?_⟩
  show (cmpQ (trendingScore jobV1) (trendingScore jobV2)).then _ = _
  have h := trendingScore_jobV2_lt
  unfold cmpQ
  rw [if_neg (not_lt_of_gt h), if_pos h]
  rfl

/-- Row with job_id 1, otherwise the baseline fields. -/
def rowA : JRow := { job := { job0 with job_id := 1 }, company := co0 }

/-- Row with job_id 2 and the same sort-relevant fields as rowA. -/
def rowB : JRow := { job := { job0 with job_id := 2 }, company := co0 }

/-- C4 counterexample: two distinct rows with equal posted_date compare
equal under both endpoints' comparators — no tertiary row-identifier
tie-break is appended, so the produced order is not total. -/
theorem C4_tiebreak_counterexample :
    rowA.job.job_id ≠ rowB.job.job_id
      ∧ searchCmp {} rowA rowB = .eq
      ∧ listCmp {} rowA rowB = .eq := by
  refine ⟨by decide, by decide, by decide⟩

/-- C4 amended: the comparators use only the fields of the ORDER BY keys
the handlers build (GET /: the single switched field with the requested
direction; POST /search: the switched keys, with posted_date descending as
a secondary key only in the relevance-with-keywords case). Rows agreeing
on those fields compare equal whatever their identifiers: no stable-id
tertiary tie-break exists. -/
theorem C4_order_keys_amended (b : SearchBody) (q : ListQuery) (r1 r2 : JRow)
    (h1 : r1.job.posted_date = r2.job.posted_date)
    (h2 : r1.job.salary_min = r2.job.salary_min)
    (h3 : r1.job.salary_max = r2.job.salary_max)
    (h4 : r1.job.title = r2.job.title)
    (h5 : r1.job.description = r2.job.description)
    (h6 : r1.company.company_name = r2.company.company_name) :
    searchCmp b r1 r2 = .eq ∧ listCmp q r1 r2 = .eq := by
  constructor
  · unfold searchCmp searchOrderKeys
    split
    · simp [cmpByKeys, h1, dirCmp_refl, ordThenEqRight]
    · simp [cmpByKeys, h2, h3, dirCmp_refl, ordThenEqRight]
    · simp [cmpByKeys, h6, dirCmp_refl, ordThenEqRight]
    · split
      · rename_i k _
        by_cases hk : k = "" <;>
          simp [hk, cmpByKeys, relevanceTier, h1, h4, h5, h6, dirCmp_refl, ordThenEqRight]
      · simp [cmpByKeys, h1, dirCmp_refl, ordThenEqRight]
  · unfold listCmp listOrderKeys listSortField
    split
    · simp [cmpByKeys, h2, dirCmp_refl, ordThenEqRight]
    · simp [cmpByKeys, h4, dirCmp_refl, ordThenEqRight]
    · simp [cmpByKeys, h6, dirCmp_refl, ordThenEqRight]
    · simp [cmpByKeys, h1, dirCmp_refl, ordThenEqRight]

/-- C4 witness: the amended statement applied to the two concrete rows
that differ only in their identifier. -/
theorem C4_order_keys_amended_witness :
    searchCmp { sort_by := some "salary" } rowA rowB = .eq
      ∧ listCmp { sort_by := some "title" } rowA rowB = .eq :=
  C4_order_keys_amended { sort_by := some "salary" } { sort_by := some "title" }
    rowA rowB rfl rfl rfl rfl rfl rfl

/-- C5 confirmed: whenever sort_by is "salary", POST /search orders by
salary_max descending then salary_min descending; the comparator is
pointwise independent of any client-supplied sort_order (which that
handler never destructures); and GET /, whose only salary-flavoured key is
"salary_min", rejects sort_by = "salary" at validation, so no listing
request is sorted under that key. -/
theorem C5_salary_sort_fixed :
    (∀ (b : SearchBody), b.sort_by = some "salary" → ∀ r1 r2 : JRow,
      searchCmp b r1 r2 = cmpByKeys salaryOrderKeys r1 r2)
    ∧ (∀ (b : SearchBody) (so : Option String) (r1 r2 : JRow),
      searchCmp { b with sort_order := so } r1 r2 = searchCmp b r1 r2)
    ∧ (∀ q : ListQuery, q.sort_by = some "salary" → listSortByValid q = false) := by
  refine ⟨?_, ?_, ?_⟩
  · intro b hb r1 r2
    simp [searchCmp, searchOrderKeys, hb]
  · intro b so r1 r2
    rfl
  · intro q hq
    unfold listSortByValid
    rw [hq]
    decide

/-- C5 witness: the confirmed statement applied to a concrete salary-sorted
body and to a listing query asking for sort_by = "salary". -/
theorem C5_salary_sort_fixed_witness :
    (searchCmp { sort_by := some "salary" } rowV1 rowV2
        = cmpByKeys salaryOrderKeys rowV1 rowV2)
      ∧ listSortByValid { sort_by := some "salary" } = false :=
  ⟨C5_salary_sort_fixed.1 { sort_by := some "salary" } rfl rowV1 rowV2,
   C5_salary_sort_fixed.2.2 { sort_by := some "salary" } rfl⟩

/-- An active row that omits its salary minimum. -/
def rowNull : JRow :=
  { job := { job0 with job_id := 7, salary_min := none }, company := co0 }

/-- C6 confirmed: a present salary bound admits exactly the rows whose
salary field meets the bound or is unset, on both endpoints; in
particular a listing with salary_min = NULL is returned by a search
filtered by salary_range.min = 50000. -/
theorem C6_salary_open_range :
    (∀ (m : Int) (s : Option Int), m ≠ 0 →
      (salaryMinOk (some m) s = true ↔ s = none ∨ ∃ v, s = some v ∧ m ≤ v))
    ∧ (∀ (m : Int) (s : Option Int), m ≠ 0 →
      (salaryMaxOk (some m) s = true ↔ s = none ∨ ∃ v, s = some v ∧ v ≤ m))
    ∧ (∀ (now : Int) (m : Int) (r : JRow),
      listWhere now { salary_min := some m } r = true ↔
        r.job.status = "active"
          ∧ (r.job.salary_min = none ∨ ∃ v, r.job.salary_min = some v ∧ m ≤ v)
          ∧ deadlineOk now r.job.application_deadline = true)
    ∧ searchWhere 200 { salary_range := some ⟨some 50000, none⟩ } rowNull = true
    ∧ (searchEndpoint ⟨[rowNull], [], []⟩ 200 none
        { salary_range := some ⟨some 50000, none⟩ }).jobs.map
          (fun it => it.row.job.job_id) = [7]
    ∧ (listEndpoint ⟨[rowNull], [], []⟩ 200 none
        { salary_min := some 50000 }).jobs.map
          (fun it => it.row.job.job_id) = [7] := by
  refine ⟨?_, ?_, ?_, by decide, by decide, by decide⟩
  · intro m s hm
    cases s <;> simp [salaryMinOk, hm]
  · intro m s hm
    cases s <;> simp [salaryMaxOk, hm]
  · intro now m r
    cases hs : r.job.salary_min <;>
      simp [listWhere, Bool.and_eq_true, decide_eq_true_eq, hs, and_assoc]

/-- C6 witness: the confirmed statement applied at bound 50000 and an
unset salary field, and at the concrete null-salary row on GET /. -/
theorem C6_salary_open_range_witness :
    salaryMinOk (some 50000) none = true
      ∧ salaryMaxOk (some 90000) none = true
      ∧ listWhere 200 { salary_min := some 50000 } rowNull = true :=
  ⟨(C6_salary_open_range.1 50000 none (by decide)).mpr (Or.inl rfl),
   (C6_salary_open_range.2.1 90000 none (by decide)).mpr (Or.inl rfl),
   (C6_salary_open_range.2.2.1 200 50000 rowNull).mpr
     ⟨by decide, Or.inl (by decide), by decide⟩⟩

/-- A listing whose title matches the keyword "engineer". -/
def rowT : JRow :=
  { job := { job0 with job_id := 21, title := "Software Engineer", description := "Write code" },
    company := co0 }

/-- A listing whose only "engineer" match is in its description. -/
def rowD : JRow :=
  { job := { job0 with job_id := 22, title := "Janitor", description := "Assist the engineering team as engineer" },
    company := co0 }

/-- C7 confirmed: under relevance sort with keywords present the
comparator is the ascending tier CASE (1 title, 2 company name,
3 description, 4 none) with posted_date descending second; a title match
ranks strictly before a description-only match; with keywords absent (or
empty, which is falsy) relevance degrades to posted_date descending. -/
theorem C7_relevance_tiers :
    (∀ (b : SearchBody) (k : String) (r1 r2 : JRow),
      b.sort_by = none ∨ b.sort_by = some "relevance" →
      b.keywords = some k → k ≠ "" →
      searchCmp b r1 r2 =
        (SqlVal.cmp (.vint (relevanceTier k r1)) (.vint (relevanceTier k r2))).then
          (SqlVal.cmp (.vint r2.job.posted_date) (.vint r1.job.posted_date)))
    ∧ (∀ (b : SearchBody) (r1 r2 : JRow),
      b.sort_by = none ∨ b.sort_by = some "relevance" →
      b.keywords = none ∨ b.keywords = some "" →
      searchCmp b r1 r2 =
        SqlVal.cmp (.vint r2.job.posted_date) (.vint r1.job.posted_date))
    ∧ (∀ (b : SearchBody) (k : String) (r1 r2 : JRow),
      b.sort_by = none ∨ b.sort_by = some "relevance" →
      b.keywords = some k → k ≠ "" →
      likeContains k r1.job.title = true →
      likeContains k r2.job.title = false →
      likeContains k r2.company.company_name = false →
      likeContains k r2.job.description = true →
      searchCmp b r1 r2 = .lt)
    ∧ searchCmp { keywords := some "engineer" } rowT rowD = .lt
    ∧ relevanceTier "engineer" rowT = 1
    ∧ relevanceTier "engineer" rowD = 3 := by
  refine ⟨?_, ?_, ?_, by decide, by decide, by decide⟩
  · intro b k r1 r2 hs hk hkne
    rcases hs with hs | hs <;>
      simp [searchCmp, searchOrderKeys, hs, hk, hkne, cmpByKeys, dirCmp, ordThenEqRight]
  · intro b r1 r2 hs hk
    rcases hs with hs | hs <;> rcases hk with hk | hk <;>
      simp [searchCmp, searchOrderKeys, hs, hk, cmpByKeys, dirCmp, ordThenEqRight]
  · intro b k r1 r2 hs hk hkne ht1 ht2 hc2 hd2
    rcases hs with hs | hs <;>
      simp [searchCmp, searchOrderKeys, hs, hk, hkne, cmpByKeys, dirCmp,
        relevanceTier, ht1, ht2, hc2, hd2, SqlVal.cmp, Ordering.then]

/-- C7 witness: the confirmed statement applied to the concrete pair with
keyword "engineer": the title-matching listing ranks strictly first. -/
theorem C7_relevance_tiers_witness :
    searchCmp { keywords := some "engineer" } rowT rowD = .lt :=
  C7_relevance_tiers.2.2.1 { keywords := some "engineer" } "engineer" rowT rowD
    (Or.inl rfl) rfl (by decide) (by decide) (by decide) (by decide) (by decide)

/-- An active listing whose only occurrence of "kubernetes" is in its
requirements column. -/
def rowReq : JRow :=
  { job := { job0 with job_id := 31, title := "Data Analyst", description := "Analyze data", requirements := "Experience with Kubernetes clusters" },
    company := co0 }

/-- C8 counterexample: the advanced-search keyword clause also scans the
requirements column, so this row satisfies it and is returned although the
keyword occurs in none of title, description and company name; the listing
endpoint's three-column clause rejects the same row. -/
theorem C8_keywords_counterexample :
    searchKeywordOk "kubernetes" rowReq = true
      ∧ specKeywordMatch3 "kubernetes" rowReq = false
      ∧ (searchEndpoint ⟨[rowReq], [], []⟩ 200 none
          { keywords := some "kubernetes" }).jobs.map
            (fun it => it.row.job.job_id) = [31]
      ∧ (listEndpoint ⟨[rowReq], [], []⟩ 200 none
          { search := some "kubernetes" }).jobs = [] := by
  refine ⟨by decide, by decide, by decide, by decide⟩

/-- C8 amended: with a nonempty keyword filter and no other client filter,
a row satisfies the advanced-search predicate exactly when it is active
and the keyword occurs case-insensitively in its title, description,
requirements or company name; on the listing endpoint exactly when it is
active, within deadline, and the keyword occurs in its title, description
or company name. -/
theorem C8_keywords_amended :
    (∀ (now : Int) (k : String) (r : JRow), k ≠ "" →
      (searchWhere now { keywords := some k } r = true ↔
        r.job.status = "active"
          ∧ (likeContains k r.job.title = true ∨ likeContains k r.job.description = true
              ∨ likeContains k r.job.requirements = true
              ∨ likeContains k r.company.company_name = true)))
    ∧ (∀ (now : Int) (k : String) (r : JRow), k ≠ "" →
      (listWhere now { search := some k } r = true ↔
        r.job.status = "active"
          ∧ (likeContains k r.job.title = true ∨ likeContains k r.job.description = true
              ∨ likeContains k r.company.company_name = true)
          ∧ deadlineOk now r.job.application_deadline = true)) := by
  constructor
  · intro now k r hk
    simp [searchWhere, searchKeywordOk, hk, Bool.and_eq_true, Bool.or_eq_true,
      decide_eq_true_eq, or_assoc, and_assoc]
  · intro now k r hk
    simp [listWhere, listKeywordOk, hk, Bool.and_eq_true, Bool.or_eq_true,
      decide_eq_true_eq, or_assoc, and_assoc]

/-- C8 witness: the amended statement applied to the requirements-matching
row on the advanced search and to a description-matching row on the
listing endpoint. -/
theorem C8_keywords_amended_witness :
    searchWhere 200 { keywords := some "kubernetes" } rowReq = true
      ∧ listWhere 200 { search := some "code" } rowT = true :=
  ⟨(C8_keywords_amended.1 200 "kubernetes" rowReq (by decide)).mpr
      ⟨by decide, Or.inr (Or.inr (Or.inl (by decide)))⟩,
   (C8_keywords_amended.2 200 "code" rowT (by decide)).mpr
      ⟨by decide, Or.inr (Or.inl (by decide)), by decide⟩⟩

theorem map_row_mkRespRow (db : DB) (ident : Option Identity) (t : Nat)
    (l : List JRow) :
    (l.map (mkRespRow db ident t)).map (fun it => it.row) = l := by
  rw [List.map_map]
  have h : ((fun it : RespRow => it.row) ∘ mkRespRow db ident t) = id := by
    funext r
    simp [mkRespRow_row]
  rw [h, List.map_id]

theorem runQuery_annot_of_not_jobseeker {db : DB} {ident : Option Identity}
    {w : JRow → Bool} {cmp : JRow → JRow → Ordering} {page limit : Nat}
    (h : ∀ i, ident = some i → i.userType ≠ "jobseeker") :
    ∀ it ∈ (runQuery db ident w cmp page limit).jobs,
      it.has_applied = none ∧ it.is_saved = none := by
  intro it hit
  simp only [runQuery] at hit
  rcases List.mem_map.mp hit with ⟨r, _, rfl⟩
  cases ident with
  | none => simp [mkRespRow]
  | some i => simp [mkRespRow, h i rfl]

theorem runQuery_annot_of_jobseeker {db : DB} {i : Identity}
    {w : JRow → Bool} {cmp : JRow → JRow → Ordering} {page limit : Nat}
    (h : i.userType = "jobseeker") :
    ∀ it ∈ (runQuery db (some i) w cmp page limit).jobs,
      it.has_applied = some ((db.applications.filter
          (fun p => p.1 = it.row.job.job_id && p.2 = i.jobseekerId)).length)
        ∧ it.is_saved = some ((db.savedJobs.filter
          (fun p => p.1 = it.row.job.job_id && p.2 = i.jobseekerId)).length) := by
  intro it hit
  simp only [runQuery] at hit
  rcases List.mem_map.mp hit with ⟨r, _, rfl⟩
  simp [mkRespRow, h]

theorem runQuery_identity_frame (db : DB) (ident : Option Identity)
    (w : JRow → Bool) (cmp : JRow → JRow → Ordering) (page limit : Nat) :
    (runQuery db ident w cmp page limit).jobs.map (fun it => it.row)
        = (runQuery db none w cmp page limit).jobs.map (fun it => it.row)
      ∧ (runQuery db ident w cmp page limit).jobs.length
        = (runQuery db none w cmp page limit).jobs.length
      ∧ (runQuery db ident w cmp page limit).pagination
        = (runQuery db none w cmp page limit).pagination := by
  refine ⟨?_, ?_, ?_⟩
  · simp only [runQuery]
    rw [map_row_mkRespRow, map_row_mkRespRow]
  · simp [runQuery]
  · simp only [runQuery]
    cases hw : pageWindow cmp (db.rows.filter w) page limit <;>
      simp [hw, recordsetTotal, mkRespRow_total]

/-- Store with one job row and one application by jobseeker 5 on job 1. -/
def db9 : DB := ⟨[row0], [(1, 5)], []⟩

/-- Authenticated jobseeker identity. -/
def ident9 : Identity := ⟨"jobseeker", 5⟩

/-- The response row db9 produces for an unauthenticated caller. -/
def itemPlain : RespRow :=
  { row := row0, total_count := 1, has_applied := none, is_saved := none }

/-- The response row db9 produces for jobseeker 5. -/
def itemAnnot : RespRow :=
  { row := row0, total_count := 1, has_applied := some 1, is_saved := some 0 }

/-- C9 confirmed: the has_applied/is_saved columns are selected only when
the caller is authenticated with the jobseeker role — unauthenticated or
other-role requests yield rows without them; when selected they hold the
counts of the caller's matching Applications/SavedJobs rows; and the
annotation is frame-preserving: the underlying rows, their order and
count, and the pagination envelope are identical to the unauthenticated
run, on both endpoints. -/
theorem C9_identity_annot_frame :
    (∀ (db : DB) (now : Int) (b : SearchBody) (q : ListQuery),
      (∀ it ∈ (searchEndpoint db now none b).jobs,
        it.has_applied = none ∧ it.is_saved = none)
      ∧ (∀ it ∈ (listEndpoint db now none q).jobs,
        it.has_applied = none ∧ it.is_saved = none))
    ∧ (∀ (db : DB) (now : Int) (i : Identity) (b : SearchBody) (q : ListQuery),
      i.userType ≠ "jobseeker" →
      (∀ it ∈ (searchEndpoint db now (some i) b).jobs,
        it.has_applied = none ∧ it.is_saved = none)
      ∧ (∀ it ∈ (listEndpoint db now (some i) q).jobs,
        it.has_applied = none ∧ it.is_saved = none))
    ∧ (∀ (db : DB) (now : Int) (i : Identity) (b : SearchBody),
      i.userType = "jobseeker" →
      ∀ it ∈ (searchEndpoint db now (some i) b).jobs,
        it.has_applied = some ((db.applications.filter
            (fun p => p.1 = it.row.job.job_id && p.2 = i.jobseekerId)).length)
          ∧ it.is_saved = some ((db.savedJobs.filter
            (fun p => p.1 = it.row.job.job_id && p.2 = i.jobseekerId)).length))
    ∧ (∀ (db : DB) (now : Int) (ident : Option Identity) (b : SearchBody),
      (searchEndpoint db now ident b).jobs.map (fun it => it.row)
          = (searchEndpoint db now none b).jobs.map (fun it => it.row)
        ∧ (searchEndpoint db now ident b).jobs.length
          = (searchEndpoint db now none b).jobs.length
        ∧ (searchEndpoint db now ident b).pagination
          = (searchEndpoint db now none b).pagination)
    ∧ (∀ (db : DB) (now : Int) (ident : Option Identity) (q : ListQuery),
      (listEndpoint db now ident q).jobs.map (fun it => it.row)
          = (listEndpoint db now none q).jobs.map (fun it => it.row)
        ∧ (listEndpoint db now ident q).jobs.length
          = (listEndpoint db now none q).jobs.length
        ∧ (listEndpoint db now ident q).pagination
          = (listEndpoint db now none q).pagination) := by
  refine ⟨?_, ?_, ?_, ?_, ?_⟩
  · intro db now b q
    exact ⟨runQuery_annot_of_not_jobseeker (by intro i h; cases h),
      runQuery_annot_of_not_jobseeker (by intro i h; cases h)⟩
  · intro db now i b q hrole
    exact ⟨runQuery_annot_of_not_jobseeker (by intro j h; cases h; exact hrole),
      runQuery_annot_of_not_jobseeker (by intro j h; cases h; exact hrole)⟩
  · intro db now i b hrole
    exact runQuery_annot_of_jobseeker hrole
  · intro db now ident b
    exact runQuery_identity_frame db ident _ _ _ _
  · intro db now ident q
    exact runQuery_identity_frame db ident _ _ _ _

/-- C9 witness: the confirmed statement applied to the one-row store: the
unauthenticated run yields the bare row, the jobseeker run yields
has_applied counting the one matching application and is_saved counting
zero saved jobs. -/
theorem C9_identity_annot_frame_witness :
    (itemPlain.has_applied = none ∧ itemPlain.is_saved = none)
      ∧ (itemAnnot.has_applied = some ((db9.applications.filter
            (fun p => p.1 = itemAnnot.row.job.job_id && p.2 = ident9.jobseekerId)).length)
          ∧ itemAnnot.is_saved = some ((db9.savedJobs.filter
            (fun p => p.1 = itemAnnot.row.job.job_id && p.2 = ident9.jobseekerId)).length)) :=
  ⟨(C9_identity_annot_frame.1 db9 200 {} {}).1 itemPlain (by decide),
   C9_identity_annot_frame.2.2.1 db9 200 ident9 {} rfl itemAnnot (by decide)⟩

/-- C10 confirmed: on a run whose main query succeeds, the response GET /
produces is the same whether the detached view-count UPDATE fails or
succeeds — the success flag, items and pagination all come from the main
query alone — and a failing update only adds the catch handler's log
line, while a succeeding one logs nothing. -/
theorem C10_fire_and_forget :
    (∀ (db : DB) (now : Int) (ident : Option Identity) (q : ListQuery)
        (f1 f2 : Bool),
      (listRun db now ident q f1).response = (listRun db now ident q f2).response)
    ∧ (∀ (db : DB) (now : Int) (ident : Option Identity) (q : ListQuery) (f : Bool),
      (listRun db now ident q f).response = listEndpoint db now ident q
        ∧ (listRun db now ident q f).response.success = true)
    ∧ (∀ (db : DB) (now : Int) (ident : Option Identity) (q : ListQuery),
      (listRun db now ident q true).logs
        = if (listEndpoint db now ident q).jobs.isEmpty then []
          else ["Failed to update view counts:"])
    ∧ (∀ (db : DB) (now : Int) (ident : Option Identity) (q : ListQuery),
      (listRun db now ident q false).logs = []) := by
  refine ⟨?_, ?_, ?_, ?_⟩
  · intro db now ident q f1 f2
    rfl
  · intro db now ident q f
    exact ⟨rfl, rfl⟩
  · intro db now ident q
    rfl
  · intro db now ident q
    simp [listRun]
